import Mathlib

/-!
Shallow embedding of the daily-ai-digest backend (src/backend/main.py,
src/backend/article_parser.py, src/backend/digest_generator.py).

Modelling conventions:
* Python strings are `List Char` (called `Str` below); `str` converts a Lean
  string literal.  Apostrophes inside source-code string literals are written
  with the escape \x27.
* External effects are parameters: the Google Custom Search HTTP transport is
  a function from (search query, page start index, try number) to an attempt
  outcome; the article page fetcher is a function from URL to the result of
  `ArticleParser.fetch_article_content`; `datetime.now()` and friends are
  explicit string parameters; the Anthropic client is
  `Option (Except Unit Str)`: `none` models a missing client, `some (.error _)`
  a raising API call and `some (.ok reply)` a call returning `reply`.
* Python dict records for articles are a structure with `Option Str` fields;
  an absent key and a key holding `None` are both modelled as `none` (the code
  under embedding only ever distinguishes them through `dict.get` defaults on
  records that always carry every key, so the collapse is observationally
  faithful for the functions modelled here), and `dict.get` with a default is
  modelled by `Option.getD`.
* Every function is total; the blanket `try/except` handlers of the source
  therefore have no raising paths left to catch, which is exactly the
  "never raises" behaviour the code implements.
* `time.sleep(1)` calls are counted (third component of `retryPage`), not
  timed.
* `json.loads` is modelled for arrays of integers only (`parseJsonIntArray`);
  inputs outside that fragment are treated as parse failures, which matches
  `json.loads` on every input exercised by the claims.
-/

set_option maxRecDepth 10000

namespace DailyDigest

/-- Python strings as lists of characters. -/
abbrev Str := List Char

/-- Conversion from Lean string literals. -/
def str (s : String) : Str := s.toList

/-- Whitespace characters recognised by `str.strip`, `\s` and JSON. -/
def isWsChar (c : Char) : Bool := c = ' ' || c = '\t' || c = '\n' || c = '\r'

/-- Python `s.strip()`. -/
def stripStr (s : Str) : Str :=
  ((s.dropWhile isWsChar).reverse.dropWhile isWsChar).reverse

/-- Python `s.lower()`. -/
def lowerStr (s : Str) : Str := s.map Char.toLower

/-- Python `s.upper()`. -/
def upperStr (s : Str) : Str := s.map Char.toUpper

/-- Does `pat` occur at the very start of `s`? -/
def startsWith : Str → Str → Bool
  | [], _ => true
  | _ :: _, [] => false
  | p :: ps, c :: cs => p == c && startsWith ps cs

/-- Leftmost occurrence of `pat` inside `s`: returns the part strictly before
the match and the part strictly after it, or `none` when `pat` does not occur.
This is the semantics of `re.search` with a literal pattern. -/
def splitFirst (pat : Str) : Str → Option (Str × Str)
  | [] => none
  | c :: rest =>
    if startsWith pat (c :: rest) then some ([], (c :: rest).drop pat.length)
    else
      match splitFirst pat rest with
      | none => none
      | some (pre, post) => some (c :: pre, post)

/-- Python `pat in s` (substring containment). -/
def containsSub (pat s : Str) : Bool := (splitFirst pat s).isSome

/-- Python `s[-n:]`. -/
def lastChars (n : Nat) (s : Str) : Str := s.drop (s.length - n)

/-- Decimal rendering of a natural number (Python f-string interpolation). -/
def natStr (n : Nat) : Str := Nat.toDigits 10 n

/-! ## Search Client (`search_google_news`, main.py lines 73-208) -/

/-- One provider item after the `item.get' extractions of main.py lines
166-183: `title`, `link`, `snippet` via `.get(_, "")`, `displayLink` via
`.get("displayLink", "")`, and the opportunistic
`article:published_time` metatag value. -/
structure RawItem where
  title : Str
  link : Str
  snippet : Str
  displayLink : Str
  published : Option Str
deriving DecidableEq

/-- Outcome of one `requests.get` call for a result page: an HTTP response
with a status code and a parsed JSON body (`none` body = no "items" key), or
a timeout / connection error. -/
inductive PageAttempt where
  | ok (status : Nat) (body : Option (List RawItem))
  | netErr
deriving DecidableEq

/-- Outcome of the retry loop of main.py lines 122-153 for one page. -/
inductive RetryOutcome where
  | success (body : Option (List RawItem))
  | failServer
  | failClient
  | failNet
deriving DecidableEq

/-- The retry loop of main.py lines 123-153 (`max_retries = 2`).  `att t` is
the outcome of the attempt made while `retry_count = t`.  Returns the
outcome, the number of attempts made, and the number of `time.sleep(1)`
calls.  `failNet` models the `raise` on line 153 propagating out of the loop;
`failServer`/`failClient` model the `break`s on lines 141 and 145. -/
def retryPage (att : Nat → PageAttempt) : Nat → Nat → RetryOutcome × Nat × Nat
  | _, 0 => (.failServer, 0, 0)
  | rc, fuel + 1 =>
    match att rc with
    | .ok status body =>
      if status = 200 then (.success body, 1, 0)
      else if 500 ≤ status then
        if rc + 1 ≤ 2 then
          let r := retryPage att (rc + 1) fuel
          (r.1, r.2.1 + 1, r.2.2 + 1)
        else (.failServer, 1, 0)
      else (.failClient, 1, 0)
    | .netErr =>
      if rc + 1 ≤ 2 then
        let r := retryPage att (rc + 1) fuel
        (r.1, r.2.1 + 1, r.2.2 + 1)
      else (.failNet, 1, 0)

/-- The `Article` class of main.py lines 56-71 as produced by the Search
Client. -/
structure SArticle where
  title : Str
  link : Str
  snippet : Str
  source : Str
  published : Option Str
deriving DecidableEq

/-- Item extraction of main.py lines 164-188: items missing a title or a link
are skipped. -/
def extractArticles (body : Option (List RawItem)) : List SArticle :=
  match body with
  | none => []
  | some items =>
    items.filterMap fun it =>
      if it.title = [] ∨ it.link = [] then none
      else some ⟨it.title, it.link, it.snippet, it.displayLink, it.published⟩

/-- The end-of-results check of main.py line 191:
`"items" not in search_results or len(search_results["items"]) < 10`. -/
def itemsUnder10 (body : Option (List RawItem)) : Bool :=
  match body with
  | none => true
  | some items => items.length < 10

/-- The pagination loop of main.py lines 118-197.  `att start t` is the
outcome of try number `t` for the page at offset `start`.  Returns `none`
when a page exhausts its network retries and the `raise` of line 153
propagates out of the loop (discarding `acc`); otherwise the collected
articles. -/
def runPages (att : Nat → Nat → PageAttempt) (numResults : Nat) :
    List Nat → List SArticle → Option (List SArticle)
  | [], acc => some acc
  | start :: rest, acc =>
    match (retryPage (att start) 0 3).1 with
    | .failNet => none
    | .failServer => some acc
    | .failClient => some acc
    | .success body =>
      let acc2 := acc ++ extractArticles body
      if itemsUnder10 body then some acc2
      else if numResults ≤ acc2.length then some (acc2.take numResults)
      else runPages att numResults rest acc2

/-- Python `range(1, num_results + 1, 10)`. -/
def pageStarts (numResults : Nat) : List Nat :=
  List.range' 1 ((numResults + 9) / 10) 10

/-- The ambient search provider: whether credentials are configured, and the
HTTP transport keyed by the final search query string. -/
structure SearchEnv where
  creds : Bool
  att : Str → Nat → Nat → PageAttempt

/-- main.py line 93. -/
def specificTopics : List Str :=
  [str "pope", str "vatican", str "catholic", str "catholicism", str "papacy"]

/-- main.py lines 92-100: append " news" unless the query mentions one of the
special-cased topics. -/
def buildSearchQuery (query : Str) : Str :=
  if specificTopics.any (fun t => containsSub (lowerStr t) (lowerStr query)) then
    query
  else query ++ str " news"

/-- Embedding of `search_google_news` (main.py lines 73-208).  `numResults` is a natural
number; the callers in this repository pass 5, 10 or 20. -/
def searchGoogleNews (env : SearchEnv) (query : Str) (numResults : Nat) :
    List SArticle :=
  if env.creds = false then []
  else if query = [] then []
  else
    let n := if numResults = 0 ∨ 20 < numResults then 10 else numResults
    let sq := buildSearchQuery query
    match runPages (env.att sq) n (pageStarts n) [] with
    | none => []
    | some arts => arts

/-! ## Query Planner (`generate_search_queries`, main.py lines 210-283) -/

/-- The default queries of main.py line 218 (no Claude client). -/
def defaultQueriesNoClient (topic : Str) : List Str :=
  [topic ++ str " latest news", topic ++ str " recent events",
   topic ++ str " today", topic ++ str " updates", topic ++ str " current"]

/-- The default queries of main.py lines 275 and 283 (exception, or zero
parsed queries). -/
def defaultQueriesFallback (topic : Str) : List Str :=
  [topic ++ str " latest news", topic ++ str " analysis",
   topic ++ str " developments", topic ++ str " trends", topic ++ str " impact"]

/-- Matching and removal of the leading enumeration marker of main.py lines
266-268 (pattern with digits, a dot or closing paren, then whitespace):
returns the stripped remainder when the line matches, else `none`. -/
def stripNumbering (line : Str) : Option Str :=
  let ds := line.takeWhile Char.isDigit
  let rest := line.dropWhile Char.isDigit
  if ds = [] then none
  else
    match rest with
    | [] => none
    | c :: rest2 =>
      if c = '.' ∨ c = ')' then
        match rest2 with
        | [] => none
        | d :: _ => if isWsChar d then some (stripStr rest2) else none
      else none

/-- The query-parsing loop of main.py lines 262-270. -/
def parseQueries (result : Str) : List Str :=
  ((stripStr result).splitOn '\n').filterMap fun line =>
    match stripNumbering line with
    | none => none
    | some q => if q = [] then none else some q

/-- Embedding of `generate_search_queries` (main.py lines 210-283) with the model call
abstracted: `none` = no client, `some (.error _)` = the API call raised,
`some (.ok reply)` = the call returned `reply`. -/
def generateSearchQueries (client : Option (Except Unit Str)) (topic : Str) :
    List Str :=
  match client with
  | none => defaultQueriesNoClient topic
  | some (.error _) => defaultQueriesFallback topic
  | some (.ok reply) =>
    let queries := parseQueries reply
    if queries = [] then defaultQueriesFallback topic
    else queries.take 5

/-! ## Search Orchestrator (`search_with_optimized_queries`, main.py
lines 285-383) -/

/-- An article dict as produced by `Article.to_dict` or synthesized by the
orchestrator / fetched by the Content Fetcher. -/
structure ArticleRec where
  title : Option Str
  link : Option Str
  snippet : Option Str
  source : Option Str
  published : Option Str
  content : Option Str
deriving DecidableEq

/-- All-`none` record, used only as the default of `List.getD`. -/
def defaultArticleRec : ArticleRec :=
  ⟨none, none, none, none, none, none⟩

/-- Embedding of `Article.to_dict` (main.py lines 64-71). -/
def SArticle.toDict (a : SArticle) : ArticleRec :=
  ⟨some a.title, some a.link, some a.snippet, some a.source, a.published, none⟩

/-- The per-result-list dedup-accumulate loop of main.py lines 307-311 (also
lines 328-331 and 340-343): state is the `seen_urls` set (as a list) and the
`all_articles` accumulator. -/
def addResults : List SArticle → List Str × List ArticleRec →
    List Str × List ArticleRec
  | [], st => st
  | a :: rest, (seen, acc) =>
    if a.link ∈ seen then addResults rest (seen, acc)
    else addResults rest (a.link :: seen, acc ++ [a.toDict])

/-- The first fallback tier of main.py lines 301-315: run every planned query
through the Search Client at 5 results per query and merge with
deduplication. -/
def runQueriesTier (env : SearchEnv) :
    List Str → List Str × List ArticleRec → List Str × List ArticleRec
  | [], st => st
  | q :: rest, st =>
    let results := searchGoogleNews env q 5
    runQueriesTier env rest (if results = [] then st else addResults results st)

/-- The synthesized placeholder article of main.py lines 350-357. -/
def mockArticleSearch (topic now : Str) : ArticleRec where
  title := some (str "Information about " ++ topic)
  link := some (str "https://en.wikipedia.org/wiki/" ++
    topic.map (fun c => if c = ' ' then '_' else c))
  snippet := some (str "We couldn\x27t find recent news articles specifically about "
    ++ topic ++
    str ". This may be because there aren\x27t any recent developments, or the search terms need refinement. Try checking major news outlets directly for information about "
    ++ topic ++ str ".")
  source := some (str "System Message")
  published := some now
  content := some (str "No recent articles were found about " ++ topic ++
    str ". This might be because there are no major recent developments on this topic, or because the search terms need to be more specific. You might try searching directly on major news websites for more information.")

/-- The three search tiers of main.py lines 293-345: the planned queries
(merged with deduplication), then -- only when that is empty -- the direct
topic query, then -- only when still empty -- the topic plus " news"
query, each merged into the same seen-set/accumulator state. -/
def orchestratorTiers (client : Option (Except Unit Str)) (env : SearchEnv)
    (topic : Str) : List Str × List ArticleRec :=
  let queries := generateSearchQueries client topic
  let st1 := runQueriesTier env queries ([], [])
  if st1.2 = [] then
    let directResults := searchGoogleNews env topic 10
    let stA := if directResults = [] then st1 else addResults directResults st1
    if stA.2 = [] then
      let newsResults := searchGoogleNews env (topic ++ str " news") 10
      if newsResults = [] then stA else addResults newsResults stA
    else stA
  else st1

/-- Embedding of `search_with_optimized_queries` (main.py lines 285-383).  `now` models
`datetime.now().isoformat()`.  All called functions are total, so the
`except` fallback of lines 362-383 is unreachable. -/
def searchWithOptimizedQueries (client : Option (Except Unit Str))
    (env : SearchEnv) (topic now : Str) : List ArticleRec :=
  let st2 := orchestratorTiers client env topic
  if st2.2 = [] then [mockArticleSearch topic now] else st2.2

/-- Convenience predicate: an article dict carries a non-empty title and a
non-empty link. -/
def goodRec (a : ArticleRec) : Prop :=
  (∃ t, a.title = some t ∧ t ≠ []) ∧ (∃ l, a.link = some l ∧ l ≠ [])

/-- Written from the words of the specification ("accumulate into a result
set deduplicated by `link`, preserving first-seen order across queries"):
keep the first occurrence of each link, relative to an initial seen set. -/
def specFirstSeenDedup (seen : List Str) : List SArticle → List ArticleRec
  | [] => []
  | a :: rest =>
    if a.link ∈ seen then specFirstSeenDedup seen rest
    else a.toDict :: specFirstSeenDedup (a.link :: seen) rest

/-- The seen set produced alongside `specFirstSeenDedup`. -/
def seenAfter (seen : List Str) : List SArticle → List Str
  | [] => seen
  | a :: rest =>
    if a.link ∈ seen then seenAfter seen rest
    else seenAfter (a.link :: seen) rest

/-! ## Content Fetcher (`ArticleParser`, article_parser.py) -/

/-- The truncation marker of article_parser.py line 74. -/
def truncationMarker : Str := str "... [content truncated]"

/-- The truncation step of article_parser.py lines 72-76, applied to the
cleaned extracted page text. -/
def truncateContent (text : Str) : Str :=
  if 10000 < text.length then text.take 10000 ++ truncationMarker else text

/-- The `published` normalization of article_parser.py lines 102-126.
`now` models `datetime.now().isoformat()`. -/
def normalizePublished (now : Str) (pub : Option Str) : Str :=
  match pub with
  | none => now ++ str "Z"
  | some p =>
    if p = [] then now ++ str "Z"
    else if !p.contains 'Z' && !p.contains '+' && !(lastChars 6 p).contains '-' then
      p ++ str "Z"
    else if p.contains '+' && !p.contains 'T' then now ++ str "Z"
    else p

/-- Embedding of `fetch_and_add_content` (article_parser.py lines 89-138).  `fetch` models
`ArticleParser.fetch_article_content` (returning `none` for a non-200 status
and `some text` otherwise); all other operations are total, so the `except`
of lines 135-138 is unreachable. -/
def fetchAndAddContent (fetch : Str → Option Str) (now : Str)
    (a : ArticleRec) : ArticleRec :=
  match a.link with
  | none => { a with content := some (str "No URL available for this article") }
  | some l =>
    if l = [] then
      { a with content := some (str "No URL available for this article") }
    else if containsSub (str "example.com") l then
      { a with content := some (a.title.getD (str "No title") ++ str ". " ++
          a.snippet.getD []) }
    else
      let pub := normalizePublished now a.published
      let c :=
        match fetch l with
        | some t => if t = [] then str "Could not extract content" else t
        | none => str "Could not extract content"
      { a with published := some pub, content := some c }

/-- Embedding of `fetch_multiple_articles` (article_parser.py lines 82-144):
`executor.map` applies `fetch_and_add_content` to every article and returns
the results in input order. -/
def fetchMultipleArticles (fetch : Str → Option Str) (now : Str)
    (articles : List ArticleRec) : List ArticleRec :=
  articles.map (fetchAndAddContent fetch now)

/-- Written from the words of claim C7: a timestamp string "carries a
timezone marker" when it contains a Z or a plus, or ends with a
minus-offset of the shape -hh:mm. -/
def hasTZMarker (s : Str) : Bool :=
  s.contains 'Z' || s.contains '+' ||
    (decide (6 ≤ s.length) && (s.getD (s.length - 6) ' ' == '-') &&
      (s.getD (s.length - 3) ' ' == ':'))

/-! ## Digest Synthesizer (`DigestGenerator`, digest_generator.py) -/

/-- The structured digest record of `_parse_claude_response` /
`_generate_mock_digest`.  The raw-response debug fields are omitted;
`is_mock` is absent (false) on the parse path. -/
structure DigestResult where
  selected_articles : List Int
  overall_summary : Str
  article_highlights : Str
  is_mock : Bool
deriving DecidableEq

/-- JSON/Python numeric value of a digit list. -/
def natOfDigits (ds : Str) : Nat :=
  ds.foldl (fun acc c => acc * 10 + (c.toNat - '0'.toNat)) 0

/-- Skip JSON whitespace. -/
def skipWs (s : Str) : Str := s.dropWhile isWsChar

/-- Parse a (possibly negative) integer literal, returning the remainder. -/
def parseIntTok (s : Str) : Option (Int × Str) :=
  match s with
  | '-' :: rest =>
    let ds := rest.takeWhile Char.isDigit
    if ds = [] then none
    else some (-(natOfDigits ds : Int), rest.dropWhile Char.isDigit)
  | _ =>
    let ds := s.takeWhile Char.isDigit
    if ds = [] then none
    else some ((natOfDigits ds : Int), s.dropWhile Char.isDigit)

/-- Parse the elements after the opening bracket of a JSON integer array;
the whole remaining input must be consumed up to trailing whitespace. -/
def parseElems : Nat → Str → Option (List Int)
  | 0, _ => none
  | fuel + 1, s =>
    match parseIntTok (skipWs s) with
    | none => none
    | some (n, rest) =>
      match skipWs rest with
      | ']' :: tail => if skipWs tail = [] then some [n] else none
      | ',' :: tail => (parseElems fuel tail).map (fun l => n :: l)
      | _ => none

/-- Model of `json.loads` restricted to arrays of integers (the only JSON fragment the
claims exercise); every other input is a parse failure. -/
def parseJsonIntArray (s : Str) : Option (List Int) :=
  match skipWs s with
  | '[' :: rest =>
    match skipWs rest with
    | ']' :: tail => if skipWs tail = [] then some [] else none
    | _ => parseElems (s.length + 1) rest
  | _ => none

/-- Python `s.find(c)` under the guarantee that `c` occurs. -/
def idxOfChar (c : Char) (s : Str) : Nat := s.findIdx (fun d => d == c)

/-- Python `s.rfind(c)` under the guarantee that `c` occurs. -/
def lastIdxOfChar (c : Char) (s : Str) : Nat :=
  s.length - 1 - s.reverse.findIdx (fun d => d == c)

/-- The selected-articles parsing of digest_generator.py lines 160-173:
bracketed JSON-ish form first, else a comma-separated digit list; parse
failure yields the empty list. -/
def parseSelected (seg : Str) : List Int :=
  let t := stripStr seg
  if t.contains '[' && t.contains ']' then
    let f := idxOfChar '[' t
    let r := lastIdxOfChar ']' t
    (parseJsonIntArray ((t.take (r + 1)).drop f)).getD []
  else
    (t.splitOn ',').filterMap fun x =>
      let x2 := stripStr x
      if x2 ≠ [] ∧ x2.all Char.isDigit then some ((natOfDigits x2 : Int))
      else none

/-- Model of the regex search for open (.*?) close with DOTALL: content of the leftmost,
shortest span between the two markers. -/
def extractSection (openTag closeTag s : Str) : Option Str :=
  match splitFirst openTag s with
  | none => none
  | some (_, rest) =>
    match splitFirst closeTag rest with
    | none => none
    | some (content, _) => some content

/-- Embedding of `_parse_claude_response` (digest_generator.py lines 147-188). -/
def parseClaudeResponse (response : Str) : DigestResult where
  selected_articles :=
    match extractSection (str "<selected_articles>") (str "</selected_articles>")
        response with
    | none => []
    | some seg => parseSelected seg
  overall_summary :=
    match extractSection (str "<overall_summary>") (str "</overall_summary>")
        response with
    | none => []
    | some seg => stripStr seg
  article_highlights :=
    match extractSection (str "<article_highlights>") (str "</article_highlights>")
        response with
    | none => []
    | some seg => stripStr seg
  is_mock := false

/-- The stdlib datetime behaviour used by the mock digest: the current
timestamp (`now`), the current formatted date (`nowDate`), and
`datetime.fromisoformat(_).isoformat()` (`fromIso`, `none` = the parse
raised). -/
structure TimeLib where
  now : Str
  nowDate : Str
  fromIso : Str → Option Str

/-- Python `s.replace("Z", "+00:00")`. -/
def replaceZ (s : Str) : Str :=
  s.flatMap fun c => if c = 'Z' then str "+00:00" else [c]

/-- The per-article highlight block of digest_generator.py lines 211-258.
`i` is the 0-based loop index, `aid` the 1-based selected article id,
`numSel` the number of selected ids. -/
def mockBlock (lib : TimeLib) (arts : List ArticleRec) (numSel i aid : Nat) :
    Str :=
  if aid ≤ arts.length then
    let a := arts.getD (aid - 1) defaultArticleRec
    let title := a.title.getD (str "Article " ++ natStr aid)
    let source := a.source.getD (str "Unknown source")
    let url := a.link.getD (str "#")
    let snippet := a.snippet.getD (str "No preview available")
    let publishedPart :=
      match a.published with
      | some p =>
        if p ≠ [] then
          let p2 :=
            if p.contains '+' || p.contains ' ' then
              match lib.fromIso (replaceZ p) with
              | some iso => iso ++ str "Z"
              | none => p
            else if !p.contains 'Z' && !p.contains '+' then p ++ str "Z"
            else p
          str "**Published:** " ++ p2 ++ str "\n\n"
        else str "**Published:** " ++ lib.now ++ str "Z\n\n"
      | none => str "**Published:** " ++ lib.now ++ str "Z\n\n"
    str "## " ++ natStr (i + 1) ++ str ". " ++ title ++ str "\n\n" ++
      str "**Source:** " ++ source ++ str "\n\n" ++ publishedPart ++
      str "**URL:** [" ++ url ++ str "](" ++ url ++ str ")\n\n" ++
      str "**Summary:** " ++ snippet ++ str "\n\n" ++
      (if i < numSel - 1 then str "---\n\n" else [])
  else []

/-- Embedding of `_generate_mock_digest` (digest_generator.py lines 190-265). -/
def generateMockDigest (lib : TimeLib) (topic : Str)
    (articles : List ArticleRec) : DigestResult :=
  let selectedNat : List Nat := List.range' 1 (min 6 (articles.length + 1) - 1)
  let sources :=
    (articles.take 3).filterMap fun a =>
      match a.source with
      | some s => if s = [] then none else some s
      | none => none
  let overall :=
    str "As of " ++ lib.nowDate ++ str ", the latest news on " ++ topic ++
      str " indicates significant developments across several areas. Recent reports from "
      ++ List.intercalate (str ", ") sources ++
      str " highlight important trends and updates that are shaping this field. The most relevant information comes from articles covering different aspects of "
      ++ topic ++
      str ", providing a comprehensive overview of the current situation."
  let highlights :=
    str "# Top Articles on " ++ upperStr topic ++ str "\n\n" ++
      (selectedNat.enum.map
        (fun p => mockBlock lib articles selectedNat.length p.1 p.2)).flatten
  { selected_articles := selectedNat.map (fun n => (n : Int))
    overall_summary := overall
    article_highlights := highlights
    is_mock := true }

/-- Embedding of `generate_digest` (digest_generator.py lines 16-80) with the model call
abstracted as in `generateSearchQueries`; on a successful call the reply is
parsed by `_parse_claude_response`. -/
def generateDigest (client : Option (Except Unit Str)) (lib : TimeLib)
    (topic : Str) (articles : List ArticleRec) : DigestResult :=
  match client with
  | none => generateMockDigest lib topic articles
  | some (.error _) => generateMockDigest lib topic articles
  | some (.ok reply) => parseClaudeResponse reply

/-! ## Concrete fixtures used by witnesses and counterexamples -/

/-- Ten well-formed provider items (a full result page). -/
def tenItems : List RawItem :=
  (List.range 10).map fun i =>
    ⟨str "title", str "https://n.org/" ++ natStr i, str "s", str "n.org", none⟩

/-- Provider that serves the full page `tenItems` at start offset 1 and
times out on every attempt at every later offset. -/
def envTimeoutPage2 : SearchEnv where
  creds := true
  att := fun _ start _ => if start = 1 then .ok 200 (some tenItems) else .netErr

/-- Provider that serves the full page `tenItems` at start offset 1 and
answers 500 on every attempt at every later offset. -/
def envServerPage2 : SearchEnv where
  creds := true
  att := fun _ start _ => if start = 1 then .ok 200 (some tenItems) else .ok 500 none

/-- Provider that answers every query with the same single article. -/
def envDup : SearchEnv where
  creds := true
  att := fun _ _ _ =>
    .ok 200 (some [⟨str "T", str "https://e.org/x", str "s", str "e.org", none⟩])

/-- Provider with no credentials configured: every search degrades to the
empty list. -/
def envNoCreds : SearchEnv where
  creds := false
  att := fun _ _ _ => .netErr

/-! ## Supporting lemmas -/

theorem startsWith_iff (p s : Str) : startsWith p s = true ↔ p <+: s := by
  induction p generalizing s with
  | nil => simp [startsWith]
  | cons a ps ih =>
    cases s with
    | nil => simp [startsWith]
    | cons c cs =>
      simp [startsWith, Bool.and_eq_true, beq_iff_eq, ih, List.cons_prefix_cons]

theorem splitFirst_eq_none_iff {pat : Str} (hp : pat ≠ []) (s : Str) :
    splitFirst pat s = none ↔ ¬ pat <:+: s := by
  induction s with
  | nil => simp [splitFirst, List.infix_nil, hp]
  | cons c cs ih =>
    by_cases hsw : startsWith pat (c :: cs)
    · have hpre : pat <+: c :: cs := (startsWith_iff pat (c :: cs)).1 hsw
      simp [splitFirst, hsw]
      exact hpre.isInfix
    · rcases e : splitFirst pat cs with - | ⟨pre, post⟩
      · have hni : ¬ pat <:+: cs := ih.1 e
        simp [splitFirst, hsw, e]
        intro hinf
        rcases List.infix_cons_iff.1 hinf with hpre | hinf2
        · exact hsw ((startsWith_iff pat (c :: cs)).2 hpre)
        · exact hni hinf2
      · have hinf : pat <:+: cs := by
          by_contra hn
          rw [ih.2 hn] at e
          exact Option.noConfusion e
        simp [splitFirst, hsw, e]
        exact List.infix_cons hinf

/-! ## Claim theorems -/

/-- C5: for every model reply string, `_parse_claude_response` is total and
parses the three sections independently: a reply in which the
`<overall_summary>` marker never occurs parses to an empty-string summary;
a selected_articles section containing `[2, 5, 1]` yields the id list
`[2, 5, 1]` in that order; a bare comma-separated digit list is also
accepted; a section parsing under neither form yields the empty id list. -/
theorem parseClaudeResponse_robust (response : Str) :
    (¬ (str "<overall_summary>") <:+: response →
      (parseClaudeResponse response).overall_summary = []) ∧
    (parseClaudeResponse
        (str "<selected_articles>[2, 5, 1]</selected_articles>")).selected_articles
      = [2, 5, 1] ∧
    (parseClaudeResponse
        (str "<selected_articles>2, 5, 1</selected_articles>")).selected_articles
      = [2, 5, 1] ∧
    (parseClaudeResponse
        (str "<selected_articles>none of them</selected_articles>")).selected_articles
      = [] := by
  refine ⟨fun h => ?_, by decide, by decide, by decide⟩
  have hn : splitFirst (str "<overall_summary>") response = none :=
    (splitFirst_eq_none_iff (by decide) response).2 h
  simp [parseClaudeResponse, extractSection, hn]

/-- C5 witness: a reply without the summary marker parses to the empty
summary. -/
theorem parseClaudeResponse_robust_witness :
    (parseClaudeResponse (str "no sections in this reply")).overall_summary
      = [] :=
  (parseClaudeResponse_robust (str "no sections in this reply")).1 (by decide)

/-- C9: extracted page text longer than 10000 characters is stored as its
first 10000 characters followed by the fixed truncation marker (so with
length 10000 plus the marker length); text of at most 10000 characters is
stored unchanged. -/
theorem truncateContent_spec (text : Str) :
    (10000 < text.length →
      truncateContent text = text.take 10000 ++ truncationMarker ∧
      (truncateContent text).length = 10000 + truncationMarker.length) ∧
    (text.length ≤ 10000 → truncateContent text = text) := by
  constructor
  · intro h
    constructor
    · simp [truncateContent, h]
    · simp [truncateContent, h, List.length_take, Nat.min_eq_left (Nat.le_of_lt h)]
  · intro h
    simp [truncateContent, Nat.not_lt.2 h]

/-- C9 witness: a 15000-character extracted text is truncated to its first
10000 characters plus the marker, and a short text is left unchanged. -/
theorem truncateContent_spec_witness :
    truncateContent (List.replicate 15000 'a')
      = (List.replicate 15000 'a').take 10000 ++ truncationMarker ∧
    truncateContent (str "short text") = str "short text" :=
  ⟨((truncateContent_spec (List.replicate 15000 'a')).1
      (by rw [List.length_replicate]; norm_num)).1,
   (truncateContent_spec (str "short text")).2 (by decide)⟩

/-- C6: calling the Digest Synthesizer with no model client configured always
produces the deterministic mock digest, with `is_mock = true` and
`selected_articles` equal to the 1-based ids `[1, ..., min 5 N]` of the first
`min 5 N` input articles in input order. -/
theorem generateDigest_noClient (lib : TimeLib) (topic : Str)
    (articles : List ArticleRec) :
    (generateDigest none lib topic articles).is_mock = true ∧
    (generateDigest none lib topic articles).selected_articles
      = (List.range' 1 (min 5 articles.length)).map (fun n => (n : Int)) := by
  have h : min 6 (articles.length + 1) - 1 = min 5 articles.length := by omega
  exact ⟨rfl, by simp [generateDigest, generateMockDigest, h]⟩

/-- Every query produced by the model-reply parsing loop is non-empty. -/
theorem parseQueries_mem_ne_nil {r : Str} : ∀ q ∈ parseQueries r, q ≠ [] := by
  intro q hq
  simp only [parseQueries, List.mem_filterMap] at hq
  obtain ⟨line, _, hmatch⟩ := hq
  rcases e : stripNumbering line with - | q2 <;> simp [e] at hmatch
  rcases hmatch with ⟨hne, rfl⟩
  exact hne

/-- C8 counterexample: with no model client configured, the Query Planner
returns the "recent events"/"today"/"updates"/"current" template set of
main.py line 218, not the claimed
"analysis"/"developments"/"trends"/"impact" set. -/
theorem generateSearchQueries_noClient_cex :
    generateSearchQueries none (str "ai")
      = [str "ai latest news", str "ai recent events", str "ai today",
         str "ai updates", str "ai current"] ∧
    generateSearchQueries none (str "ai")
      ≠ [str "ai latest news", str "ai analysis", str "ai developments",
         str "ai trends", str "ai impact"] := by decide

/-- C8 amended: the Query Planner fallback is total and deterministic, but
the missing-client branch uses the template qualifiers "latest news",
"recent events", "today", "updates", "current", while the exception branch
and the zero-parsed-queries branch use "latest news", "analysis",
"developments", "trends", "impact"; in all cases the returned sequence has
length 1 to 5 and every query is non-empty. -/
theorem generateSearchQueries_total (client : Option (Except Unit Str))
    (topic : Str) :
    (client = none →
      generateSearchQueries client topic = defaultQueriesNoClient topic) ∧
    (∀ e, client = some (.error e) →
      generateSearchQueries client topic = defaultQueriesFallback topic) ∧
    (∀ r, client = some (.ok r) → parseQueries r = [] →
      generateSearchQueries client topic = defaultQueriesFallback topic) ∧
    1 ≤ (generateSearchQueries client topic).length ∧
    (generateSearchQueries client topic).length ≤ 5 ∧
    (∀ q ∈ generateSearchQueries client topic, q ≠ []) := by
  have hno : ∀ q ∈ defaultQueriesNoClient topic, q ≠ [] := by
    intro q hq
    simp [defaultQueriesNoClient, str] at hq
    rcases hq with h | h | h | h | h <;> simp [h]
  have hfb : ∀ q ∈ defaultQueriesFallback topic, q ≠ [] := by
    intro q hq
    simp [defaultQueriesFallback, str] at hq
    rcases hq with h | h | h | h | h <;> simp [h]
  rcases client with - | c
  · exact ⟨fun _ => rfl, nofun,
      nofun,
      by simp [generateSearchQueries, defaultQueriesNoClient],
      by simp [generateSearchQueries, defaultQueriesNoClient], hno⟩
  · rcases c with e | r
    · exact ⟨nofun, fun _ _ => rfl, nofun,
        by simp [generateSearchQueries, defaultQueriesFallback],
        by simp [generateSearchQueries, defaultQueriesFallback], hfb⟩
    · by_cases hp : parseQueries r = []
      · exact ⟨nofun, nofun,
          fun _ _ _ => by simp [generateSearchQueries, hp],
          by simp [generateSearchQueries, hp, defaultQueriesFallback],
          by simp [generateSearchQueries, hp, defaultQueriesFallback],
          by
            intro q hq
            simp only [generateSearchQueries, hp, if_pos rfl] at hq
            exact hfb q hq⟩
      · have hlen : 0 < (parseQueries r).length := List.length_pos.2 hp
        refine ⟨nofun, nofun, fun r2 h h2 => ?_, ?_, ?_, ?_⟩
        · simp only [Option.some.injEq, Except.ok.injEq] at h
          subst h
          exact absurd h2 hp
        · simp [generateSearchQueries, hp, List.length_take]
          omega
        · simp [generateSearchQueries, hp, List.length_take]
        · intro q hq
          simp only [generateSearchQueries, hp, if_neg hp] at hq
          exact parseQueries_mem_ne_nil q (List.take_subset 5 _ hq)

/-- C8 witness: the no-client branch at topic "ai". -/
theorem generateSearchQueries_total_witness :
    generateSearchQueries none (str "ai") = defaultQueriesNoClient (str "ai") :=
  (generateSearchQueries_total none (str "ai")).1 rfl

/-- C7 counterexample: an article with a perfectly reachable link whose
`published` value is the date-only string "2025-04-03" (a dash within the
last six characters, no offset) passes through the Content Fetcher
unchanged, and carries no timezone marker. -/
theorem fetchAndAddContent_published_cex :
    (fetchAndAddContent (fun _ => some (str "body")) (str "2025-05-05T10:00:00")
        { title := some (str "t"), link := some (str "https://site.org/a"),
          snippet := some (str "s"), source := none,
          published := some (str "2025-04-03"), content := none }).published
      = some (str "2025-04-03") ∧
    hasTZMarker (str "2025-04-03") = false := by decide

/-- C7 amended: for an article whose link is non-empty and not a placeholder
domain, the Content Fetcher normalizes `published` as follows: absent or
empty, it becomes the current time with a UTC marker; containing no Z, no
plus, and no dash within its last six characters, a Z is appended;
containing a plus but no T (a malformed combined date+offset), it is
replaced by the current time; in every other case (in particular a
dash-bearing date string without any timezone indicator) it is left
unchanged. -/
theorem fetchAndAddContent_published_amended (fetch : Str → Option Str)
    (now : Str) (a : ArticleRec) (l : Str) (hl : a.link = some l)
    (hl1 : l ≠ []) (hl2 : containsSub (str "example.com") l = false) :
    (a.published = none →
      (fetchAndAddContent fetch now a).published = some (now ++ str "Z")) ∧
    (a.published = some [] →
      (fetchAndAddContent fetch now a).published = some (now ++ str "Z")) ∧
    (∀ p, a.published = some p → p ≠ [] →
      'Z' ∉ p → '+' ∉ p → '-' ∉ lastChars 6 p →
      (fetchAndAddContent fetch now a).published = some (p ++ str "Z")) ∧
    (∀ p, a.published = some p →
      '+' ∈ p → 'T' ∉ p →
      (fetchAndAddContent fetch now a).published = some (now ++ str "Z")) ∧
    (∀ p, a.published = some p → p ≠ [] →
      ('Z' ∈ p ∨ '+' ∈ p ∨ '-' ∈ lastChars 6 p) →
      ('+' ∉ p ∨ 'T' ∈ p) →
      (fetchAndAddContent fetch now a).published = some p) := by
  refine ⟨fun h => ?_, fun h => ?_, fun p h hne hZ hP hD => ?_,
    fun p h hP hT => ?_, fun p h hne hor hor2 => ?_⟩
  · simp [fetchAndAddContent, hl, hl1, hl2, normalizePublished, h]
  · simp [fetchAndAddContent, hl, hl1, hl2, normalizePublished, h]
  · simp [fetchAndAddContent, hl, hl1, hl2, normalizePublished, h, hne, hZ,
      hP, hD]
  · have hne : p ≠ [] := by
      intro he
      rw [he] at hP
      exact (List.not_mem_nil '+') hP
    simp [fetchAndAddContent, hl, hl1, hl2, normalizePublished, h, hne, hP, hT]
  · rcases hor with h1 | h1 | h1 <;> rcases hor2 with h2 | h2 <;>
      first
      | exact absurd h1 h2
      | simp [fetchAndAddContent, hl, hl1, hl2, normalizePublished, h, hne,
          h1, h2]

/-- C7 amended witness: a timestamp without any timezone indicator and
without a dash in its last six characters gets a Z appended. -/
theorem fetchAndAddContent_published_amended_witness :
    (fetchAndAddContent (fun _ => some (str "body")) (str "NOW")
        { title := none, link := some (str "https://site.org/a"),
          snippet := none, source := none,
          published := some (str "2025-04-03T10:00:00"),
          content := none }).published
      = some (str "2025-04-03T10:00:00" ++ str "Z") :=
  (fetchAndAddContent_published_amended (fun _ => some (str "body"))
      (str "NOW") _ _ rfl (by decide) (by decide)).2.2.1
    (str "2025-04-03T10:00:00") rfl (by decide) (by decide) (by decide)
    (by decide)

/-- The function `fetch_and_add_content` never changes the title, link, snippet or source
of an article. -/
theorem fetchAndAddContent_frame (fetch : Str → Option Str) (now : Str)
    (a : ArticleRec) :
    (fetchAndAddContent fetch now a).title = a.title ∧
    (fetchAndAddContent fetch now a).link = a.link ∧
    (fetchAndAddContent fetch now a).snippet = a.snippet ∧
    (fetchAndAddContent fetch now a).source = a.source := by
  rcases hl : a.link with - | l
  · simp [fetchAndAddContent, hl]
  · by_cases h1 : l = []
    · simp [fetchAndAddContent, hl, h1]
    · by_cases h2 : containsSub (str "example.com") l = true
      · simp [fetchAndAddContent, hl, h1, h2]
      · simp [fetchAndAddContent, hl, h1, h2]

/-- Every article leaving `fetch_and_add_content` has a populated content
field. -/
theorem fetchAndAddContent_content (fetch : Str → Option Str) (now : Str)
    (a : ArticleRec) : ∃ c, (fetchAndAddContent fetch now a).content = some c := by
  rcases hl : a.link with - | l <;> simp only [fetchAndAddContent, hl]
  · exact ⟨_, rfl⟩
  · split
    · exact ⟨_, rfl⟩
    · split
      · exact ⟨_, rfl⟩
      · exact ⟨_, rfl⟩

/-- C3: the Content Fetcher returns a list of the same length with elements
in the same order as the input (the i-th output is the enrichment of the
i-th input), and every output has a populated content string; one fetch
outcome never removes or reorders other articles. -/
theorem fetchMultipleArticles_spec (fetch : Str → Option Str) (now : Str)
    (articles : List ArticleRec) :
    (fetchMultipleArticles fetch now articles).length = articles.length ∧
    (∀ i, i < articles.length →
      (fetchMultipleArticles fetch now articles).getD i defaultArticleRec
        = fetchAndAddContent fetch now (articles.getD i defaultArticleRec)) ∧
    (∀ a ∈ fetchMultipleArticles fetch now articles,
      ∃ c, a.content = some c) := by
  refine ⟨by simp [fetchMultipleArticles], fun i hi => ?_, fun a ha => ?_⟩
  · have hi2 : i < (fetchMultipleArticles fetch now articles).length := by
      simpa [fetchMultipleArticles] using hi
    rw [List.getD_eq_getElem _ _ hi2, List.getD_eq_getElem _ _ hi]
    simp [fetchMultipleArticles]
  · simp only [fetchMultipleArticles, List.mem_map] at ha
    obtain ⟨b, _, rfl⟩ := ha
    exact fetchAndAddContent_content fetch now b

/-- C3 witness: a singleton batch. -/
theorem fetchMultipleArticles_spec_witness :
    (fetchMultipleArticles (fun _ => some (str "x")) (str "NOW")
        [defaultArticleRec]).getD 0 defaultArticleRec
      = fetchAndAddContent (fun _ => some (str "x")) (str "NOW")
          (([defaultArticleRec] : List ArticleRec).getD 0 defaultArticleRec) :=
  (fetchMultipleArticles_spec (fun _ => some (str "x")) (str "NOW")
      [defaultArticleRec]).2.1 0 (by decide)

/-- C10: the Content Fetcher modifies only the content and published fields:
positionally, the title, link, snippet and source of every article are
unchanged between input and output. -/
theorem fetchMultipleArticles_frame (fetch : Str → Option Str) (now : Str)
    (articles : List ArticleRec) :
    (fetchMultipleArticles fetch now articles).map ArticleRec.title
        = articles.map ArticleRec.title ∧
    (fetchMultipleArticles fetch now articles).map ArticleRec.link
        = articles.map ArticleRec.link ∧
    (fetchMultipleArticles fetch now articles).map ArticleRec.snippet
        = articles.map ArticleRec.snippet ∧
    (fetchMultipleArticles fetch now articles).map ArticleRec.source
        = articles.map ArticleRec.source := by
  refine ⟨?_, ?_, ?_, ?_⟩ <;>
    · rw [fetchMultipleArticles, List.map_map]
      refine List.map_congr_left fun a _ => ?_
      · first
        | exact (fetchAndAddContent_frame fetch now a).1
        | exact (fetchAndAddContent_frame fetch now a).2.1
        | exact (fetchAndAddContent_frame fetch now a).2.2.1
        | exact (fetchAndAddContent_frame fetch now a).2.2.2

/-- Every article produced by the item-extraction of the Search Client has a
non-empty title and a non-empty link (items missing either are skipped). -/
theorem mem_extractArticles {body : Option (List RawItem)} {a : SArticle}
    (h : a ∈ extractArticles body) : a.title ≠ [] ∧ a.link ≠ [] := by
  rcases body with - | items
  · simp [extractArticles] at h
  · simp only [extractArticles, List.mem_filterMap] at h
    obtain ⟨it, -, hit⟩ := h
    split at hit
    · exact absurd hit (by simp)
    · rename_i hc
      push_neg at hc
      obtain rfl : (⟨it.title, it.link, it.snippet, it.displayLink,
          it.published⟩ : SArticle) = a := Option.some.inj hit
      exact ⟨hc.1, hc.2⟩

/-- The pagination loop only adds filtered articles to its accumulator. -/
theorem runPages_good (att : Nat → Nat → PageAttempt) (numResults : Nat) :
    ∀ (starts : List Nat) (acc out : List SArticle),
    (∀ a ∈ acc, a.title ≠ [] ∧ a.link ≠ []) →
    runPages att numResults starts acc = some out →
    ∀ a ∈ out, a.title ≠ [] ∧ a.link ≠ [] := by
  intro starts
  induction starts with
  | nil =>
    intro acc out hacc hrun
    simp only [runPages, Option.some.injEq] at hrun
    exact hrun ▸ hacc
  | cons s rest ih =>
    intro acc out hacc hrun
    simp only [runPages] at hrun
    split at hrun
    · exact absurd hrun (by simp)
    · exact (Option.some.inj hrun) ▸ hacc
    · exact (Option.some.inj hrun) ▸ hacc
    · rename_i body heq
      have hacc2 : ∀ a ∈ acc ++ extractArticles body,
          a.title ≠ [] ∧ a.link ≠ [] := by
        intro a ha
        rcases List.mem_append.1 ha with ha | ha
        · exact hacc a ha
        · exact mem_extractArticles ha
      split at hrun
      · exact (Option.some.inj hrun) ▸ hacc2
      · split at hrun
        · intro a ha
          exact hacc2 a (List.take_subset _ _ ((Option.some.inj hrun) ▸ ha))
        · exact ih _ out hacc2 hrun

/-- Every article returned by the Search Client has a non-empty title and a
non-empty link. -/
theorem mem_searchGoogleNews {env : SearchEnv} {q : Str} {n : Nat}
    {a : SArticle} (h : a ∈ searchGoogleNews env q n) :
    a.title ≠ [] ∧ a.link ≠ [] := by
  simp only [searchGoogleNews] at h
  split at h
  · simp at h
  · split at h
    · simp at h
    · split at h
      · simp at h
      · rename_i arts heq
        exact runPages_good _ _ _ [] arts (by simp) heq a h

/-- The dedup-accumulate loop preserves `goodRec` when fed Search Client
output. -/
theorem addResults_good :
    ∀ (results : List SArticle) (st : List Str × List ArticleRec),
    (∀ a ∈ st.2, goodRec a) →
    (∀ s ∈ results, s.title ≠ [] ∧ s.link ≠ []) →
    ∀ a ∈ (addResults results st).2, goodRec a := by
  intro results
  induction results with
  | nil =>
    intro st hst _ a ha
    exact hst a ha
  | cons r rest ih =>
    intro st hst hres a ha
    obtain ⟨seen, acc⟩ := st
    simp only [addResults] at ha
    split at ha
    · exact ih (seen, acc) hst (fun s hs => hres s (by simp [hs])) a ha
    · refine ih (r.link :: seen, acc ++ [r.toDict]) ?_
        (fun s hs => hres s (by simp [hs])) a ha
      intro b hb
      rcases List.mem_append.1 hb with hb | hb
      · exact hst b hb
      · have hr := hres r (by simp)
        simp only [List.mem_singleton] at hb
        subst hb
        exact ⟨⟨r.title, rfl, hr.1⟩, ⟨r.link, rfl, hr.2⟩⟩

/-- The first tier preserves `goodRec`. -/
theorem runQueriesTier_good (env : SearchEnv) :
    ∀ (queries : List Str) (st : List Str × List ArticleRec),
    (∀ a ∈ st.2, goodRec a) →
    ∀ a ∈ (runQueriesTier env queries st).2, goodRec a := by
  intro queries
  induction queries with
  | nil =>
    intro st hst a ha
    exact hst a ha
  | cons q rest ih =>
    intro st hst a ha
    simp only [runQueriesTier] at ha
    refine ih _ ?_ a ha
    split
    · exact hst
    · exact addResults_good _ st hst (fun s hs => mem_searchGoogleNews hs)

/-- All three tiers preserve `goodRec`. -/
theorem orchestratorTiers_good (client : Option (Except Unit Str))
    (env : SearchEnv) (topic : Str) :
    ∀ a ∈ (orchestratorTiers client env topic).2, goodRec a := by
  intro a ha
  simp only [orchestratorTiers] at ha
  set st1 := runQueriesTier env (generateSearchQueries client topic) ([], [])
    with hst1
  have hg1 : ∀ b ∈ st1.2, goodRec b :=
    runQueriesTier_good env _ ([], []) (by simp)
  by_cases e1 : st1.2 = []
  · rw [if_pos e1] at ha
    by_cases e2 : searchGoogleNews env topic 10 = []
    · rw [if_pos e2, if_pos e1] at ha
      by_cases e4 : searchGoogleNews env (topic ++ str " news") 10 = []
      · rw [if_pos e4] at ha
        exact hg1 a ha
      · rw [if_neg e4] at ha
        exact addResults_good _ st1 hg1 (fun s hs => mem_searchGoogleNews hs)
          a ha
    · rw [if_neg e2] at ha
      have hgAdd : ∀ b ∈ (addResults (searchGoogleNews env topic 10) st1).2,
          goodRec b :=
        addResults_good _ st1 hg1 (fun s hs => mem_searchGoogleNews hs)
      by_cases e5 : (addResults (searchGoogleNews env topic 10) st1).2 = []
      · rw [if_pos e5] at ha
        by_cases e6 : searchGoogleNews env (topic ++ str " news") 10 = []
        · rw [if_pos e6] at ha
          exact hgAdd a ha
        · rw [if_neg e6] at ha
          exact addResults_good _ _ hgAdd
            (fun s hs => mem_searchGoogleNews hs) a ha
      · rw [if_neg e5] at ha
        exact hgAdd a ha
  · rw [if_neg e1] at ha
    exact hg1 a ha

/-- If every planned query turns up empty, the first tier leaves the state
unchanged. -/
theorem runQueriesTier_empty (env : SearchEnv) :
    ∀ (queries : List Str) (st : List Str × List ArticleRec),
    (∀ q ∈ queries, searchGoogleNews env q 5 = []) →
    runQueriesTier env queries st = st := by
  intro queries
  induction queries with
  | nil => intro st _; rfl
  | cons q rest ih =>
    intro st h
    have hq : searchGoogleNews env q 5 = [] := h q (by simp)
    simp only [runQueriesTier, hq, if_pos]
    exact ih st (fun p hp => h p (by simp [hp]))

/-- C1: the Search Orchestrator never returns an empty sequence (its
embedding is total, so it also never raises); every returned article has a
non-empty title and a non-empty link; and when every search tier yields
nothing, it returns exactly one synthesized placeholder article. -/
theorem searchWithOptimizedQueries_spec (client : Option (Except Unit Str))
    (env : SearchEnv) (topic now : Str) :
    searchWithOptimizedQueries client env topic now ≠ [] ∧
    (∀ a ∈ searchWithOptimizedQueries client env topic now, goodRec a) ∧
    ((∀ q ∈ generateSearchQueries client topic,
        searchGoogleNews env q 5 = []) →
      searchGoogleNews env topic 10 = [] →
      searchGoogleNews env (topic ++ str " news") 10 = [] →
      searchWithOptimizedQueries client env topic now
        = [mockArticleSearch topic now]) := by
  have hmock : goodRec (mockArticleSearch topic now) := by
    refine ⟨⟨_, rfl, ?_⟩, ⟨_, rfl, ?_⟩⟩ <;> simp [str]
  refine ⟨?_, ?_, ?_⟩
  · simp only [searchWithOptimizedQueries]
    split
    · simp
    · assumption
  · intro a ha
    simp only [searchWithOptimizedQueries] at ha
    split at ha
    · simp only [List.mem_singleton] at ha
      exact ha ▸ hmock
    · exact orchestratorTiers_good client env topic a ha
  · intro h1 h2 h3
    have htiers : orchestratorTiers client env topic = ([], []) := by
      simp only [orchestratorTiers]
      rw [runQueriesTier_empty env _ ([], []) h1]
      simp [h2, h3]
    simp only [searchWithOptimizedQueries]
    rw [htiers]
    simp

/-- C1 witness: with no credentials every tier is empty and the orchestrator
returns exactly the placeholder article. -/
theorem searchWithOptimizedQueries_spec_witness :
    searchWithOptimizedQueries none envNoCreds (str "ai") (str "NOW")
      = [mockArticleSearch (str "ai") (str "NOW")] :=
  (searchWithOptimizedQueries_spec none envNoCreds (str "ai") (str "NOW")).2.2
    (by decide) (by decide) (by decide)

/-- The dedup-accumulate loop is the spec-side first-seen dedup appended to
the accumulator. -/
theorem addResults_eq :
    ∀ (l : List SArticle) (seen : List Str) (acc : List ArticleRec),
    addResults l (seen, acc)
      = (seenAfter seen l, acc ++ specFirstSeenDedup seen l) := by
  intro l
  induction l with
  | nil =>
    intro seen acc
    simp [addResults, seenAfter, specFirstSeenDedup]
  | cons a rest ih =>
    intro seen acc
    by_cases h : a.link ∈ seen
    · simp [addResults, seenAfter, specFirstSeenDedup, h, ih]
    · simp [addResults, seenAfter, specFirstSeenDedup, h, ih]

/-- The dedup-accumulate loop composes over concatenation. -/
theorem addResults_append (l1 l2 : List SArticle) :
    ∀ st : List Str × List ArticleRec,
    addResults (l1 ++ l2) st = addResults l2 (addResults l1 st) := by
  induction l1 with
  | nil => intro st; rfl
  | cons a rest ih =>
    intro st
    obtain ⟨seen, acc⟩ := st
    by_cases h : a.link ∈ seen <;> simp [addResults, h, ih]

/-- The first tier is the dedup-accumulate loop applied to the concatenation
of the per-query Search Client results. -/
theorem runQueriesTier_eq (env : SearchEnv) :
    ∀ (queries : List Str) (st : List Str × List ArticleRec),
    runQueriesTier env queries st
      = addResults
          ((queries.map (fun q => searchGoogleNews env q 5)).flatten) st := by
  intro queries
  induction queries with
  | nil => intro st; rfl
  | cons q rest ih =>
    intro st
    have hstep : (if searchGoogleNews env q 5 = [] then st
        else addResults (searchGoogleNews env q 5) st)
        = addResults (searchGoogleNews env q 5) st := by
      split
      · rename_i he
        rw [he]
        rfl
      · rfl
    simp only [runQueriesTier, hstep, ih, List.map_cons, List.flatten_cons,
      addResults_append]

/-- Every article kept by the spec-side dedup has a link outside the initial
seen set. -/
theorem specFirstSeenDedup_mem :
    ∀ (l : List SArticle) (seen : List Str) (a : ArticleRec),
    a ∈ specFirstSeenDedup seen l →
    ∃ lk, a.link = some lk ∧ lk ∉ seen := by
  intro l
  induction l with
  | nil =>
    intro seen a ha
    simp [specFirstSeenDedup] at ha
  | cons x rest ih =>
    intro seen a ha
    simp only [specFirstSeenDedup] at ha
    split at ha
    · exact ih seen a ha
    · rename_i hx
      rcases List.mem_cons.1 ha with rfl | ha

      · exact ⟨x.link, rfl, hx⟩
      · obtain ⟨lk, h1, h2⟩ := ih _ a ha
        exact ⟨lk, h1, fun hm => h2 (List.mem_cons_of_mem _ hm)⟩

/-- The spec-side dedup produces pairwise distinct links. -/
theorem specFirstSeenDedup_nodup :
    ∀ (l : List SArticle) (seen : List Str),
    ((specFirstSeenDedup seen l).map ArticleRec.link).Nodup := by
  intro l
  induction l with
  | nil =>
    intro seen
    simp [specFirstSeenDedup]
  | cons x rest ih =>
    intro seen
    simp only [specFirstSeenDedup]
    split
    · exact ih seen
    · simp only [List.map_cons, List.nodup_cons]
      refine ⟨?_, ih _⟩
      intro hmem
      simp only [List.mem_map] at hmem
      obtain ⟨b, hb, hlink⟩ := hmem
      obtain ⟨lk, h1, h2⟩ := specFirstSeenDedup_mem rest _ b hb
      rw [h1] at hlink
      have hlkx : lk = x.link := Option.some.inj hlink
      exact h2 (hlkx ▸ List.mem_cons_self _ _)

/-- No article with an already-seen link survives the spec-side dedup. -/
theorem specFirstSeenDedup_filter_seen :
    ∀ (l : List SArticle) (seen : List Str) (lk : Str), lk ∈ seen →
    (specFirstSeenDedup seen l).filter (fun a => a.link == some lk) = [] := by
  intro l seen lk hlk
  rw [List.filter_eq_nil_iff]
  intro a ha
  obtain ⟨lk2, h1, h2⟩ := specFirstSeenDedup_mem l seen a ha
  simp only [h1, beq_iff_eq, Option.some.injEq]
  intro he
  exact h2 (he ▸ hlk)

/-- A link occurring in the stream and not yet seen survives the spec-side
dedup on exactly one article. -/
theorem specFirstSeenDedup_count :
    ∀ (l : List SArticle) (seen : List Str) (lk : Str), lk ∉ seen →
    (∃ x ∈ l, x.link = lk) →
    ((specFirstSeenDedup seen l).filter
      (fun a => a.link == some lk)).length = 1 := by
  intro l
  induction l with
  | nil =>
    intro seen lk _ hex
    obtain ⟨x, hx, -⟩ := hex
    simp at hx
  | cons x rest ih =>
    intro seen lk hseen hex
    simp only [specFirstSeenDedup]
    split
    · rename_i hx
      refine ih seen lk hseen ?_
      obtain ⟨y, hy, hl⟩ := hex
      rcases List.mem_cons.1 hy with rfl | hy
      · exact absurd (hl ▸ hx) hseen
      · exact ⟨y, hy, hl⟩
    · rename_i hx
      by_cases hlk : x.link = lk
      · subst hlk
        have hpred : ((x.toDict).link == some x.link) = true := by
          simp [SArticle.toDict]
        rw [List.filter_cons, if_pos (by simp [SArticle.toDict]),
          List.length_cons,
          specFirstSeenDedup_filter_seen rest (x.link :: seen) x.link
            (List.mem_cons_self _ _)]
        rfl
      · rw [List.filter_cons, if_neg (by simp [SArticle.toDict, hlk])]
        obtain ⟨y, hy, hl⟩ := hex
        rcases List.mem_cons.1 hy with rfl | hy
        · exact absurd hl hlk
        · refine ih (x.link :: seen) lk ?_ ⟨y, hy, hl⟩
          simp only [List.mem_cons]
          push_neg
          exact ⟨fun h => hlk h.symm, hseen⟩

/-- C2: the merged first-tier result is exactly the first-seen dedup by link
of the concatenated per-query Search Client results (so merged articles
appear in first-seen order across the executed queries); its links are
pairwise distinct; any link appearing in the raw results -- within one query
or across two -- appears on exactly one merged article; and a non-empty
merged result is what the orchestrator returns. -/
theorem orchestrator_dedup (client : Option (Except Unit Str))
    (env : SearchEnv) (topic now : Str) :
    (runQueriesTier env (generateSearchQueries client topic) ([], [])).2
      = specFirstSeenDedup []
          (((generateSearchQueries client topic).map
            (fun q => searchGoogleNews env q 5)).flatten) ∧
    ((runQueriesTier env (generateSearchQueries client topic)
        ([], [])).2.map ArticleRec.link).Nodup ∧
    (∀ lk,
      (∃ x ∈ ((generateSearchQueries client topic).map
          (fun q => searchGoogleNews env q 5)).flatten, x.link = lk) →
      ((runQueriesTier env (generateSearchQueries client topic)
          ([], [])).2.filter (fun a => a.link == some lk)).length = 1) ∧
    ((runQueriesTier env (generateSearchQueries client topic) ([], [])).2
        ≠ [] →
      searchWithOptimizedQueries client env topic now
        = (runQueriesTier env (generateSearchQueries client topic)
            ([], [])).2) := by
  have hmain : (runQueriesTier env (generateSearchQueries client topic)
      ([], [])).2
      = specFirstSeenDedup []
          (((generateSearchQueries client topic).map
            (fun q => searchGoogleNews env q 5)).flatten) := by
    rw [runQueriesTier_eq, addResults_eq]
    simp
  refine ⟨hmain, ?_, ?_, ?_⟩
  · rw [hmain]
    exact specFirstSeenDedup_nodup _ []
  · intro lk hex
    rw [hmain]
    exact specFirstSeenDedup_count _ [] lk (by simp) hex
  · intro hne
    simp [searchWithOptimizedQueries, orchestratorTiers, hne]

/-- C2 witness: five queries each returning the same single article merge to
exactly one article with that link. -/
theorem orchestrator_dedup_witness :
    ((runQueriesTier envDup (generateSearchQueries none (str "ai"))
        ([], [])).2.filter
      (fun a => a.link == some (str "https://e.org/x"))).length = 1 :=
  (orchestrator_dedup none envDup (str "ai") (str "NOW")).2.2.1
    (str "https://e.org/x") (by decide)

/-- C4 counterexample: a provider serves a full page of 10 articles at the
first offset and then times out on every attempt at the second offset.  The
20-result query returns the empty list -- timeout exhaustion raises out of
the page loop and the function-level handler discards the 10 articles
already collected -- whereas the claim says the query degrades to the
articles collected so far.  The same provider at 10 requested results (one
page) returns those 10 articles, and a 500-failing second page keeps them
too. -/
theorem searchGoogleNews_timeout_cex :
    searchGoogleNews envTimeoutPage2 (str "q") 20 = [] ∧
    searchGoogleNews envTimeoutPage2 (str "q") 10 ≠ [] ∧
    searchGoogleNews envServerPage2 (str "q") 20
      = searchGoogleNews envTimeoutPage2 (str "q") 10 := by decide

/-- C4 amended: each page request is tried at most 3 times (2 retries with a
sleep between consecutive attempts) for server-error statuses and for
timeout/connection failures; a client-error status aborts after exactly one
try with no sleep; on server-error exhaustion or a client-error status the
query degrades to the articles collected so far, while timeout/connection
exhaustion aborts the whole query (the collected articles are discarded by
the function-level handler). -/
theorem searchRetry_amended (att : Nat → PageAttempt)
    (att2 : Nat → Nat → PageAttempt) (s numResults : Nat) (rest : List Nat)
    (acc : List SArticle) :
    ((∀ t, t < 3 → ∃ c b, att t = .ok c b ∧ 500 ≤ c) →
      retryPage att 0 3 = (.failServer, 3, 2)) ∧
    ((∀ t, t < 3 → att t = .netErr) →
      retryPage att 0 3 = (.failNet, 3, 2)) ∧
    (∀ c b, att 0 = .ok c b → c ≠ 200 → c < 500 →
      retryPage att 0 3 = (.failClient, 1, 0)) ∧
    ((retryPage (att2 s) 0 3).1 = .failServer →
      runPages att2 numResults (s :: rest) acc = some acc) ∧
    ((retryPage (att2 s) 0 3).1 = .failClient →
      runPages att2 numResults (s :: rest) acc = some acc) ∧
    ((retryPage (att2 s) 0 3).1 = .failNet →
      runPages att2 numResults (s :: rest) acc = none) := by
  refine ⟨?_, ?_, ?_, ?_, ?_, ?_⟩
  · intro hsrv
    obtain ⟨c0, b0, e0, hc0⟩ := hsrv 0 (by omega)
    obtain ⟨c1, b1, e1, hc1⟩ := hsrv 1 (by omega)
    obtain ⟨c2, b2, e2, hc2⟩ := hsrv 2 (by omega)
    have n0 : ¬ c0 = 200 := by omega
    have n1 : ¬ c1 = 200 := by omega
    have n2 : ¬ c2 = 200 := by omega
    simp [retryPage, e0, e1, e2, n0, n1, n2, hc0, hc1, hc2]
  · intro hnet
    have e0 := hnet 0 (by omega)
    have e1 := hnet 1 (by omega)
    have e2 := hnet 2 (by omega)
    simp [retryPage, e0, e1, e2]
  · intro c b e0 h200 hlt
    simp [retryPage, e0, h200, Nat.not_le.2 hlt]
  · intro h
    simp [runPages, h]
  · intro h
    simp [runPages, h]
  · intro h
    simp [runPages, h]

/-- C4 amended witness: the three retry shapes and the two page-level
degradations at concrete providers. -/
theorem searchRetry_amended_witness :
    retryPage (fun _ => .ok 500 none) 0 3 = (.failServer, 3, 2) ∧
    retryPage (fun _ => .netErr) 0 3 = (.failNet, 3, 2) ∧
    retryPage (fun _ => .ok 404 none) 0 3 = (.failClient, 1, 0) ∧
    runPages (fun _ _ => .ok 500 none) 10 [1] [] = some [] ∧
    runPages (fun _ _ => .netErr) 10 [1] [] = none :=
  ⟨(searchRetry_amended (fun _ => .ok 500 none) (fun _ _ => .ok 500 none)
      1 10 [] []).1 (fun t _ => ⟨500, none, rfl, by omega⟩),
   (searchRetry_amended (fun _ => .netErr) (fun _ _ => .netErr)
      1 10 [] []).2.1 (fun t _ => rfl),
   (searchRetry_amended (fun _ => .ok 404 none) (fun _ _ => .ok 404 none)
      1 10 [] []).2.2.1 404 none rfl (by omega) (by omega),
   (searchRetry_amended (fun _ => .ok 500 none) (fun _ _ => .ok 500 none)
      1 10 [] []).2.2.2.1 (by decide),
   (searchRetry_amended (fun _ => .netErr) (fun _ _ => .netErr)
      1 10 [] []).2.2.2.2.2 (by decide)⟩

end DailyDigest
